import Mathlib

/-!
Verification of the medilink session / refresh-token lifecycle.

Shallow embedding of:
  src/authentication/services/jwt_tokens.py
  src/authentication/services/Login.py       (LoginService.authenticate)
  src/authentication/services/refresh_service.py (RefreshService.refresh)

Conventions of the embedding:
  * timestamps are natural numbers (seconds); datetime.now(...) becomes an
    explicit `now` parameter; `timedelta(days=d)` is `d * 86400`;
  * the PostgREST store is a triple of row lists; a GET with an `eq.` filter
    is `List.filter`, a PATCH applies its json patch to every matching row,
    a POST appends a row (ids that postgres would generate are parameters);
  * each outbound HTTP request can, besides succeeding, report an unexpected
    status code or raise a `requests` exception (timeout / connection error);
    a `CallFate` parameter per request site selects which happens;
  * SHA-256 and urlsafe base64 are injected as function parameters: the
    claims under study never depend on the concrete digest, only on both
    services applying the same composition of digest and hex encoding;
  * a Python function that can raise is modelled with an explicit
    exception-outcome constructor; `refresh` returns `(outcome, store)` where
    the store component is the state of the database at return or raise time.
-/

namespace Medilink

-- ===================================================================
-- Data model: rows of the users / sessions / session_tokens relations
-- ===================================================================

structure UserRow where
  id : Nat
  identifier : String
  p_role : String
  password_hash : String
  deriving DecidableEq

structure SessionRow where
  id : Nat
  user_id : Nat
  created_at : Nat
  last_used_at : Option Nat
  expires_at : Option Nat
  revoked_at : Option Nat
  user_agent : String
  ip_address : String
  deriving DecidableEq

structure TokenRow where
  id : Nat
  session_id : Nat
  token_hash : String
  created_at : Option Nat
  expires_at : Option Nat
  used_at : Option Nat
  revoked_at : Option Nat
  deriving DecidableEq

structure Store where
  users : List UserRow
  sessions : List SessionRow
  tokens : List TokenRow
  deriving DecidableEq

-- ===================================================================
-- Constants (jwt_tokens.py, Login.py, refresh_service.py)
-- ===================================================================

def ACCESS_TOKEN_TTL_SECONDS : Nat := 15 * 60
def REFRESH_TOKEN_TTL_DAYS : Nat := 14
def USER_JWT_TTL_SECONDS : Nat := 15 * 60

/-- `_expiry_after_days(days)` of Login.py / refresh_service.py:
`now + timedelta(days=days)`, in seconds. -/
def expiry_after_days (now days : Nat) : Nat := now + days * 86400

/-- The `timeout=` argument (seconds) of each `requests` call issued by
LoginService.authenticate, in program order: the login RPC (Login.py line
118), the sessions POST (line 165), the session_tokens POST (line 194). -/
def authenticateCallTimeouts : List Nat := [5, 5, 5]

/-- The `timeout=` argument (seconds) of each `requests` call issued by
RefreshService.refresh, in program order: token lookup (refresh_service.py
line 71), replay-revocation PATCH (line 91), session GET (line 108), user
GET (line 133), mark-used PATCH (line 149), new-token POST (line 169),
last_used_at PATCH (line 185). -/
def refreshCallTimeouts : List Nat := [5, 5, 5, 5, 5, 5, 5]

-- ===================================================================
-- Hex encoding and token digests
-- ===================================================================

/-- One hex digit, lower case (as produced by `bytes.hex()` and
`hashlib.sha256(...).hexdigest()`). -/
def hexDigitChar (n : Nat) : Char :=
  if n < 10 then Char.ofNat (48 + n) else Char.ofNat (87 + n)

/-- Hex encoding of one byte. -/
def byteHex (b : Nat) : String :=
  String.mk [hexDigitChar (b / 16 % 16), hexDigitChar (b % 16)]

/-- `bytes.hex()` / `hexdigest()`: lower-case hex of a byte string.  In
Python, `h.hexdigest()` is by definition `h.digest().hex()`; the model makes
that single encoding function explicit. -/
def bytesHex (bs : List Nat) : String :=
  String.join (bs.map byteHex)

/-- refresh_service.py `_hash_token`: the raw SHA-256 digest (bytes) of the
presented secret.  The digest function itself is a parameter `sha`. -/
def hash_token (sha : String → List Nat) (token : String) : List Nat :=
  sha token

/-- Login.py `_generate_refresh_token`: returns the client token (urlsafe
base64 of 32 random bytes, padding stripped — the encoder is the parameter
`b64`) together with the *hex string* digest stored in the database
(`hashlib.sha256(token.encode()).hexdigest()`). -/
def generate_refresh_token_login (sha : String → List Nat)
    (b64 : List Nat → String) (raw : List Nat) : String × String :=
  let token := b64 raw
  (token, bytesHex (sha token))

/-- refresh_service.py `_generate_refresh_token`: same construction but the
second component is the raw digest bytes (`.digest()`); `refresh` hex-encodes
it with `.hex()` at the POST site. -/
def generate_refresh_token_rot (sha : String → List Nat)
    (b64 : List Nat → String) (raw : List Nat) : String × List Nat :=
  let token := b64 raw
  (token, sha token)

-- ===================================================================
-- jwt_tokens.generate_user_access_token and its call sites
-- ===================================================================

/-- Python exceptions that the modelled code can raise. -/
inductive PyExc where
  | typeError
  | valueError
  | requestException
  deriving DecidableEq

/-- The claim set of a user access token (jwt_tokens.py `_encode_jwt`
applied to the payload of `generate_user_access_token`).  The signed token
is represented by its decoded claims; note there is no session-id field of
any kind in the payload built by jwt_tokens.py. -/
structure UserClaims where
  sub : Nat
  role : String
  iss : String
  aud : String
  iat : Nat
  exp : Nat
  deriving DecidableEq

/-- jwt_tokens.py `generate_user_access_token(user_id: str, role: str)`:
raises ValueError on falsy arguments, otherwise returns the signed claims
{sub, role, iss:"medilink-auth"} + {aud, iat, exp} added by `_encode_jwt`. -/
def generate_user_access_token (now : Nat) (user_id : Nat) (role : String) :
    Except PyExc UserClaims :=
  if user_id = 0 then Except.error PyExc.valueError
  else if role = "" then Except.error PyExc.valueError
  else Except.ok
    { sub := user_id, role := role, iss := "medilink-auth",
      aud := "medilink", iat := now, exp := now + USER_JWT_TTL_SECONDS }

/-- The keyword arguments supplied at a call site of
`generate_user_access_token`. -/
structure UserTokenKwargs where
  user_id : Option Nat
  role : Option String
  p_role : Option String
  session_id : Option Nat
  deriving DecidableEq

/-- Python call semantics for `generate_user_access_token`: the function
signature accepts exactly the keywords `user_id` and `role`; supplying
`p_role` or `session_id` (as Login.py line 212 and refresh_service.py line
191 both do) raises `TypeError: unexpected keyword argument` before the body
runs, as does omitting a required argument. -/
def call_generate_user_access_token (now : Nat) (kw : UserTokenKwargs) :
    Except PyExc UserClaims :=
  if kw.p_role.isSome || kw.session_id.isSome then Except.error PyExc.typeError
  else
    match kw.user_id, kw.role with
    | some uid, some role => generate_user_access_token now uid role
    | _, _ => Except.error PyExc.typeError

-- ===================================================================
-- Store operations (PostgREST calls, by their effect on the row lists)
-- ===================================================================

/-- GET /session_tokens?token_hash=eq.h -/
def findTokensByHash (st : Store) (h : String) : List TokenRow :=
  st.tokens.filter (fun t => t.token_hash = h)

/-- GET /sessions?id=eq.sid -/
def findSessionsById (st : Store) (sid : Nat) : List SessionRow :=
  st.sessions.filter (fun s => s.id = sid)

/-- GET /users?id=eq.uid -/
def findUsersById (st : Store) (uid : Nat) : List UserRow :=
  st.users.filter (fun u => u.id = uid)

/-- PATCH /sessions?id=eq.sid {"revoked_at": now}: sets revoked_at on every
matching row (unconditionally, as the json patch does). -/
def revokeSessionRows (st : Store) (sid : Nat) (at_ : Nat) : Store :=
  { st with sessions :=
      st.sessions.map (fun s => if s.id = sid then { s with revoked_at := some at_ } else s) }

/-- PATCH /sessions?id=eq.sid {"last_used_at": now} -/
def touchSessionRows (st : Store) (sid : Nat) (at_ : Nat) : Store :=
  { st with sessions :=
      st.sessions.map (fun s => if s.id = sid then { s with last_used_at := some at_ } else s) }

/-- PATCH /session_tokens?id=eq.i {"used_at": now} on the token list.
NOTE (faithful to refresh_service.py lines 144-150): the filter is by row id
only; there is no `used_at=is.null` condition, so the patch also "succeeds"
(HTTP 204) on a row whose used_at is already set. -/
def markUsedTokens (l : List TokenRow) (i : Nat) (at_ : Nat) : List TokenRow :=
  l.map fun t => if t.id = i then { t with used_at := some at_ } else t

def markTokenUsed (st : Store) (i : Nat) (at_ : Nat) : Store :=
  { st with tokens := markUsedTokens st.tokens i at_ }

/-- POST /session_tokens: appends the new row. -/
def insertToken (st : Store) (t : TokenRow) : Store :=
  { st with tokens := st.tokens ++ [t] }

/-- POST /sessions: appends the new row. -/
def insertSession (st : Store) (s : SessionRow) : Store :=
  { st with sessions := st.sessions ++ [s] }

-- ===================================================================
-- Expiry / activity predicates
-- ===================================================================

/-- refresh_service.py lines 96-99: a token is expired iff it has an
expires_at and `expires_at < now` (strict). -/
def tokenExpired (now : Nat) (t : TokenRow) : Bool :=
  match t.expires_at with
  | some e => e < now
  | none => false

/-- refresh_service.py lines 121-124, same shape for the session row. -/
def sessionExpired (now : Nat) (s : SessionRow) : Bool :=
  match s.expires_at with
  | some e => e < now
  | none => false

/-- A RefreshToken row is active: used_at null, revoked_at null, and not
expired (by the code's own expiry test). -/
def tokenActive (now : Nat) (t : TokenRow) : Bool :=
  t.used_at.isNone && t.revoked_at.isNone && !tokenExpired now t

/-- The active tokens a token list holds for one session. -/
def activeOf (now : Nat) (l : List TokenRow) (sid : Nat) : List TokenRow :=
  l.filter (fun t => t.session_id = sid && tokenActive now t)

/-- Chain invariant of the spec: at most one active RefreshToken per
session. -/
def ActiveInvariant (now : Nat) (st : Store) : Prop :=
  ∀ sid, (activeOf now st.tokens sid).length ≤ 1

-- ===================================================================
-- Fault model for the outbound HTTP calls
-- ===================================================================

/-- What one `requests` call does: succeed with the expected status,
return an unexpected status code, or raise (timeout / connection error). -/
inductive CallFate where
  | ok
  | httpFail
  | netRaise
  deriving DecidableEq

/-- One fate per request site of RefreshService.refresh. -/
structure RefreshFaults where
  lookupToken : CallFate
  revokeSession : CallFate
  getSession : CallFate
  getUser : CallFate
  markUsed : CallFate
  createToken : CallFate
  touchSession : CallFate
  deriving DecidableEq

def allOkRot : RefreshFaults :=
  ⟨CallFate.ok, CallFate.ok, CallFate.ok, CallFate.ok,
   CallFate.ok, CallFate.ok, CallFate.ok⟩

-- ===================================================================
-- RefreshService.refresh
-- ===================================================================

/-- The dict returned in the second tuple component of `refresh`. -/
inductive RefreshValue where
  | errorDict (msg : String)
  | tokenDict (access : UserClaims) (refresh_token : String) (expires_in : Nat)
  deriving DecidableEq

/-- Outcome of a call to `refresh`: the returned `(bool, dict)` pair, or an
uncaught Python exception (refresh has no try/except of its own). -/
inductive ROutcome where
  | returns (ok : Bool) (v : RefreshValue)
  | raises (e : PyExc)
  deriving DecidableEq

/-- The replacement RefreshToken row a rotation POSTs (refresh_service.py
lines 161-170); no created_at is sent, used_at / revoked_at start null. -/
def rotNewToken (now newId sid : Nat) (hashHex : String) : TokenRow :=
  { id := newId, session_id := sid, token_hash := hashHex, created_at := none,
    expires_at := some (expiry_after_days now REFRESH_TOKEN_TTL_DAYS),
    used_at := none, revoked_at := none }

/-- refresh_service.py lines 141-204 (steps 5-9): mark the presented token
used, create the replacement token, touch the session, issue the JWT. -/
def rotate_commit (now : Nat) (f : RefreshFaults) (newId : Nat)
    (new_refresh : String) (new_hash_hex : String)
    (token_row : TokenRow) (session : SessionRow) (user : UserRow)
    (st : Store) : ROutcome × Store :=
  match f.markUsed with
  | CallFate.netRaise => (ROutcome.raises PyExc.requestException, st)
  | CallFate.httpFail =>
      (ROutcome.returns false (RefreshValue.errorDict "Token rotation failed"), st)
  | CallFate.ok =>
    let st1 := markTokenUsed st token_row.id now
    match f.createToken with
    | CallFate.netRaise => (ROutcome.raises PyExc.requestException, st1)
    | CallFate.httpFail =>
        (ROutcome.returns false (RefreshValue.errorDict "Token rotation failed"), st1)
    | CallFate.ok =>
      let st2 := insertToken st1 (rotNewToken now newId token_row.session_id new_hash_hex)
      match f.touchSession with
      | CallFate.netRaise => (ROutcome.raises PyExc.requestException, st2)
      | fate =>
        let st3 := if fate = CallFate.ok then touchSessionRows st2 session.id now else st2
        match call_generate_user_access_token now
          { user_id := some user.id, role := some user.p_role,
            p_role := none, session_id := some session.id } with
        | Except.error e => (ROutcome.raises e, st3)
        | Except.ok access =>
            (ROutcome.returns true
              (RefreshValue.tokenDict access new_refresh ACCESS_TOKEN_TTL_SECONDS), st3)

/-- refresh_service.py lines 79-204: everything after the token lookup,
operating on the *snapshot* `token_row` read by that lookup and on the
current store `st` (the two coincide in a sequential run; interleavings can
make the snapshot stale). -/
def rotate_afterLookup (sha : String → List Nat) (b64 : List Nat → String)
    (now : Nat) (f : RefreshFaults) (newId : Nat) (newRaw : List Nat)
    (token_row : TokenRow) (st : Store) : ROutcome × Store :=
  -- 2. check token status: replay?
  if token_row.used_at.isSome || token_row.revoked_at.isSome then
    match f.revokeSession with
    | CallFate.netRaise => (ROutcome.raises PyExc.requestException, st)
    | CallFate.httpFail =>
        -- the patch's status code is never inspected (lines 86-93)
        (ROutcome.returns false
          (RefreshValue.errorDict "Session revoked due to token reuse"), st)
    | CallFate.ok =>
        (ROutcome.returns false
          (RefreshValue.errorDict "Session revoked due to token reuse"),
         revokeSessionRows st token_row.session_id now)
  else if tokenExpired now token_row then
    (ROutcome.returns false (RefreshValue.errorDict "Refresh token expired"), st)
  else
    -- 3. validate session
    match f.getSession with
    | CallFate.netRaise => (ROutcome.raises PyExc.requestException, st)
    | CallFate.httpFail =>
        (ROutcome.returns false (RefreshValue.errorDict "Session not found"), st)
    | CallFate.ok =>
      match findSessionsById st token_row.session_id with
      | [] => (ROutcome.returns false (RefreshValue.errorDict "Session not found"), st)
      | session :: _ =>
        if session.revoked_at.isSome then
          (ROutcome.returns false (RefreshValue.errorDict "Session revoked"), st)
        else if sessionExpired now session then
          (ROutcome.returns false (RefreshValue.errorDict "Session expired"), st)
        else
          -- 4. fetch user data
          match f.getUser with
          | CallFate.netRaise => (ROutcome.raises PyExc.requestException, st)
          | CallFate.httpFail =>
              (ROutcome.returns false (RefreshValue.errorDict "User not found"), st)
          | CallFate.ok =>
            match findUsersById st session.user_id with
            | [] => (ROutcome.returns false (RefreshValue.errorDict "User not found"), st)
            | user :: _ =>
              rotate_commit now f newId
                (generate_refresh_token_rot sha b64 newRaw).1
                (bytesHex (generate_refresh_token_rot sha b64 newRaw).2)
                token_row session user st

/-- RefreshService.refresh (refresh_service.py lines 61-204). -/
def refresh (sha : String → List Nat) (b64 : List Nat → String)
    (now : Nat) (f : RefreshFaults) (newId : Nat) (newRaw : List Nat)
    (refresh_token : String) (st : Store) : ROutcome × Store :=
  -- token_hash = _hash_token(self.refresh_token); the query sends its .hex()
  match f.lookupToken with
  | CallFate.netRaise => (ROutcome.raises PyExc.requestException, st)
  | CallFate.httpFail =>
      (ROutcome.returns false (RefreshValue.errorDict "Invalid refresh token"), st)
  | CallFate.ok =>
    match findTokensByHash st (bytesHex (hash_token sha refresh_token)) with
    | [] => (ROutcome.returns false (RefreshValue.errorDict "Invalid refresh token"), st)
    | token_row :: _ => rotate_afterLookup sha b64 now f newId newRaw token_row st

-- ===================================================================
-- LoginService.authenticate
-- ===================================================================

/-- Python truthiness of `data.get(...)`: absent or empty string is falsy. -/
def falsy (o : Option String) : Bool :=
  match o with
  | none => true
  | some s => s = ""

/-- Outcome of `PH.verify(stored_hash, password)` (argon2): success,
VerifyMismatchError, or some other exception.  The verifier itself is a
parameter of `authenticate`. -/
inductive VerifyOutcome where
  | ok
  | mismatch
  | raisesOther
  deriving DecidableEq

/-- One fate per request site of LoginService.authenticate.  Unlike
`refresh`, every request here sits inside a try/except, so a raising call
is turned into an error return, never an escaping exception. -/
structure AuthFaults where
  rpcLookup : CallFate
  createSession : CallFate
  createToken : CallFate
  deriving DecidableEq

def allOkAuth : AuthFaults := ⟨CallFate.ok, CallFate.ok, CallFate.ok⟩

/-- The dict returned in the second tuple component of `authenticate`. -/
inductive AuthValue where
  | errorDict (msg : String)
  | successDict (access : UserClaims) (refresh_token : String)
      (expires_in : Nat) (user_id : Nat) (role : String)
  deriving DecidableEq

/-- The Session row a login POSTs (Login.py lines 150-166), including the
`or`-defaults of `__init__` and the length truncation of user_agent /
ip_address. -/
def loginNewSession (now newSessionId uid : Nat) (user_agent ip_address : String) :
    SessionRow :=
  { id := newSessionId, user_id := uid, created_at := now,
    last_used_at := some now,
    expires_at := some (expiry_after_days now REFRESH_TOKEN_TTL_DAYS),
    revoked_at := none,
    user_agent := (if user_agent = "" then "Unknown" else user_agent).take 255,
    ip_address := (if ip_address = "" then "127.0.0.1" else ip_address).take 45 }

/-- The initial RefreshToken row a login POSTs (Login.py lines 184-195). -/
def loginNewToken (now newTokenId sid : Nat) (hashHex : String) : TokenRow :=
  { id := newTokenId, session_id := sid, token_hash := hashHex,
    created_at := some now,
    expires_at := some (expiry_after_days now REFRESH_TOKEN_TTL_DAYS),
    used_at := none, revoked_at := none }

/-- LoginService.authenticate (Login.py lines 86-230).

`identifier`/`password` are the values read off the request body in
`__init__`; `verify` is the argon2 verifier; `newSessionId`/`newTokenId`
are the ids postgres assigns to the inserted rows; `newRaw` the 32 random
bytes of `secrets.token_bytes`.

The user lookup runs the `get_user_for_login` RPC.
Modelled from the spec: that RPC is a database function not present under
src/; per spec section 6, `lookup_user(identifier) -> {id, role,
password_hash} | NotFound`, modelled as filtering the users relation by the
identifier (an empty result is the NotFound case, Login.py line 123). -/
def authenticate (now : Nat) (identifier password : Option String)
    (verify : String → String → VerifyOutcome)
    (f : AuthFaults) (newSessionId newTokenId : Nat)
    (sha : String → List Nat) (b64 : List Nat → String) (newRaw : List Nat)
    (user_agent ip_address : String) (st : Store) :
    (Bool × AuthValue) × Store :=
  -- 1. validate input
  if falsy identifier || falsy password then
    ((false, AuthValue.errorDict "Invalid credentials"), st)
  else
    -- 2. fetch user via RPC (wrapped in try/except RequestException)
    match f.rpcLookup with
    | CallFate.netRaise =>
        ((false, AuthValue.errorDict "Authentication service unavailable"), st)
    | CallFate.httpFail =>
        ((false, AuthValue.errorDict "Invalid credentials"), st)
    | CallFate.ok =>
      match st.users.filter (fun u => u.identifier = identifier.getD "") with
      | [] => ((false, AuthValue.errorDict "Invalid credentials"), st)
      | user :: _ =>
        -- 3. verify password
        match verify user.password_hash (password.getD "") with
        | VerifyOutcome.mismatch =>
            ((false, AuthValue.errorDict "Invalid credentials"), st)
        | VerifyOutcome.raisesOther =>
            ((false, AuthValue.errorDict "Authentication failed"), st)
        | VerifyOutcome.ok =>
          -- 4. create session (try/except around the POST)
          match f.createSession with
          | CallFate.netRaise =>
              ((false, AuthValue.errorDict "Session creation failed"), st)
          | CallFate.httpFail =>
              ((false, AuthValue.errorDict "Session creation failed"), st)
          | CallFate.ok =>
            let session := loginNewSession now newSessionId user.id user_agent ip_address
            let st1 := insertSession st session
            -- 5. create refresh token (try/except around the POST)
            let pair := generate_refresh_token_login sha b64 newRaw
            match f.createToken with
            | CallFate.netRaise =>
                ((false, AuthValue.errorDict "Token creation failed"), st1)
            | CallFate.httpFail =>
                ((false, AuthValue.errorDict "Token creation failed"), st1)
            | CallFate.ok =>
              let st2 := insertToken st1 (loginNewToken now newTokenId session.id pair.2)
              -- 6. issue access token; the kwargs include p_role and
              -- session_id, so the call raises TypeError, caught by the
              -- surrounding `except Exception` (Login.py lines 211-219)
              match call_generate_user_access_token now
                { user_id := some user.id, role := some "authenticated",
                  p_role := some user.p_role,
                  session_id := some session.id } with
              | Except.error _ =>
                  ((false, AuthValue.errorDict "Access token generation failed"), st2)
              | Except.ok access =>
                  ((true, AuthValue.successDict access pair.1
                      ACCESS_TOKEN_TTL_SECONDS user.id user.p_role), st2)

-- ===================================================================
-- Sequences of operations
-- ===================================================================

/-- One client-visible operation against the store: a login attempt or a
rotation attempt, at time `now`, with arbitrary request data and call
fates.  The only environmental assumption is that the session id postgres
assigns to a sessions insert is fresh: no existing token row references
it. -/
inductive OpStep : Nat → Store → Store → Prop where
  | auth (now : Nat) (identifier password : Option String)
      (verify : String → String → VerifyOutcome) (f : AuthFaults)
      (newSessionId newTokenId : Nat) (sha : String → List Nat)
      (b64 : List Nat → String) (newRaw : List Nat) (ua ip : String)
      (st : Store)
      (hfresh : ∀ t ∈ st.tokens, t.session_id ≠ newSessionId) :
      OpStep now st (authenticate now identifier password verify f
        newSessionId newTokenId sha b64 newRaw ua ip st).2
  | rot (now : Nat) (sha : String → List Nat) (b64 : List Nat → String)
      (f : RefreshFaults) (newId : Nat) (newRaw : List Nat)
      (refresh_token : String) (st : Store) :
      OpStep now st (refresh sha b64 now f newId newRaw refresh_token st).2

/-- A run: any sequence of authenticate / rotate operations executed at
nondecreasing times, starting from a given store. -/
inductive Reachable : Nat → Store → Nat → Store → Prop where
  | base (now : Nat) (st : Store) : Reachable now st now st
  | step (n0 n1 n2 : Nat) (st0 st1 st2 : Store) :
      Reachable n0 st0 n1 st1 → n1 ≤ n2 → OpStep n2 st1 st2 →
      Reachable n0 st0 n2 st2

-- ===================================================================
-- Concrete sample data (used by the witness theorems)
-- ===================================================================

/-- A digest function for concrete runs (the services are verified for
every `sha`; the samples need one fixed choice). -/
def dummySha : String → List Nat := fun s => [s.length % 256]

/-- An encoder standing in for urlsafe base64 with padding stripped. -/
def dummyB64 : List Nat → String :=
  fun bs => String.mk (List.replicate (bs.length + 1) 'x')

def aliceUser : UserRow :=
  { id := 1, identifier := "alice", p_role := "patient", password_hash := "ph" }

def liveSession : SessionRow :=
  { id := 10, user_id := 1, created_at := 0, last_used_at := none,
    expires_at := some 1000000000, revoked_at := none,
    user_agent := "ua", ip_address := "ip" }

/-- An active token whose stored hash matches the presented secret "t"
under `dummySha` (bytesHex [1] = "01"). -/
def activeTok : TokenRow :=
  { id := 100, session_id := 10, token_hash := "01", created_at := some 0,
    expires_at := some 1000000000, used_at := none, revoked_at := none }

def spentTok : TokenRow := { activeTok with used_at := some 5 }

def expiredTok : TokenRow := { activeTok with expires_at := some 50 }

def baseStore : Store :=
  { users := [aliceUser], sessions := [liveSession], tokens := [activeTok] }

def spentStore : Store := { baseStore with tokens := [spentTok] }

def expiredStore : Store := { baseStore with tokens := [expiredTok] }

-- ===================================================================
-- Helper lemmas: list counting
-- ===================================================================

theorem length_filter_mono {α : Type} (p q : α → Bool) (l : List α)
    (h : ∀ a ∈ l, p a = true → q a = true) :
    (l.filter p).length ≤ (l.filter q).length := by
  induction l with
  | nil => simp
  | cons a l ih =>
    have ih2 := ih fun x hx hp => h x (List.mem_cons_of_mem a hx) hp
    cases hpa : p a with
    | true =>
      have hqa := h a (List.mem_cons_self a l) hpa
      simp [List.filter_cons, hpa, hqa]
      omega
    | false =>
      cases hqa : q a with
      | true =>
        simp [List.filter_cons, hpa, hqa]
        omega
      | false =>
        simp [List.filter_cons, hpa, hqa]
        exact ih2

theorem eq_of_mem_length_le_one {α : Type} {l : List α} {a b : α}
    (h : l.length ≤ 1) (ha : a ∈ l) (hb : b ∈ l) : a = b := by
  rcases l with _ | ⟨x, _ | ⟨y, t⟩⟩
  · cases ha
  · rw [List.mem_singleton] at ha hb
    rw [ha, hb]
  · simp at h

theorem length_filter_singleton_le_one {α : Type} (p : α → Bool) (a : α) :
    (List.filter p [a]).length ≤ 1 := by
  cases h : p a <;> simp [List.filter, h]

-- ===================================================================
-- Helper lemmas: store operations and active-token counting
-- ===================================================================

theorem tokens_revokeSessionRows (st : Store) (sid at_ : Nat) :
    (revokeSessionRows st sid at_).tokens = st.tokens := rfl

theorem tokens_touchSessionRows (st : Store) (sid at_ : Nat) :
    (touchSessionRows st sid at_).tokens = st.tokens := rfl

theorem sessions_markTokenUsed (st : Store) (i at_ : Nat) :
    (markTokenUsed st i at_).sessions = st.sessions := rfl

theorem sessions_insertToken (st : Store) (t : TokenRow) :
    (insertToken st t).sessions = st.sessions := rfl

/-- Marking a token used can only shrink the set of active tokens of any
session: the patched row is inactive afterwards, every other row is
untouched. -/
theorem activeOf_markUsed_le (now : Nat) (l : List TokenRow) (i at_ sid : Nat) :
    (activeOf now (markUsedTokens l i at_) sid).length ≤
      (activeOf now l sid).length := by
  unfold activeOf markUsedTokens
  rw [List.filter_map]
  rw [List.length_map]
  apply length_filter_mono
  intro t _ hp
  simp only [Function.comp] at hp
  by_cases hid : t.id = i
  · simp [hid, tokenActive] at hp
  · simpa [hid] using hp

/-- If the active tokens of a session are at most one and the marked row is
an active member of that session, then after the mark-used patch the session
has no active token left. -/
theorem activeOf_markUsed_self (now : Nat) (l : List TokenRow) (tr : TokenRow)
    (hmem : tr ∈ l) (hact : tokenActive now tr = true)
    (hlen : (activeOf now l tr.session_id).length ≤ 1) :
    activeOf now (markUsedTokens l tr.id now) tr.session_id = [] := by
  unfold activeOf markUsedTokens
  rw [List.filter_map]
  rw [List.map_eq_nil_iff]
  rw [List.filter_eq_nil_iff]
  intro t htmem hp
  simp only [Function.comp] at hp
  by_cases hid : t.id = tr.id
  · simp [hid, tokenActive] at hp
  · simp only [if_neg hid] at hp
    have htin : t ∈ activeOf now l tr.session_id := by
      unfold activeOf
      rw [List.mem_filter]
      exact ⟨htmem, hp⟩
    have htrin : tr ∈ activeOf now l tr.session_id := by
      unfold activeOf
      rw [List.mem_filter]
      refine ⟨hmem, ?_⟩
      simp [hact]
    exact hid (congrArg TokenRow.id (eq_of_mem_length_le_one hlen htin htrin))

/-- Appending one token row to the relation. -/
theorem activeOf_append (now : Nat) (l : List TokenRow) (t : TokenRow) (sid : Nat) :
    activeOf now (l ++ [t]) sid =
      activeOf now l sid ++
        (if t.session_id = sid ∧ tokenActive now t = true then [t] else []) := by
  unfold activeOf
  rw [List.filter_append]
  congr 1
  by_cases h1 : t.session_id = sid
  · by_cases h2 : tokenActive now t = true
    · simp [h1, h2]
    · simp [h1, h2]
  · simp [h1]

/-- A token that is active at a later instant was active at any earlier
one: used_at / revoked_at do not depend on the clock and expiry is upward
closed. -/
theorem tokenActive_mono (n1 n2 : Nat) (t : TokenRow) (h : n1 ≤ n2)
    (ha : tokenActive n2 t = true) : tokenActive n1 t = true := by
  unfold tokenActive at ha ⊢
  unfold tokenExpired at ha ⊢
  rcases he : t.expires_at with _ | e
  · simpa [he] using ha
  · simp only [he, Bool.and_eq_true, Bool.not_eq_true', decide_eq_false_iff_not] at ha ⊢
    obtain ⟨ha1, ha2⟩ := ha
    refine ⟨ha1, ?_⟩
    omega

theorem activeOf_length_mono_time (n1 n2 : Nat) (l : List TokenRow) (sid : Nat)
    (h : n1 ≤ n2) :
    (activeOf n2 l sid).length ≤ (activeOf n1 l sid).length := by
  unfold activeOf
  apply length_filter_mono
  intro t _ hp
  simp only [Bool.and_eq_true] at hp ⊢
  exact ⟨hp.1, tokenActive_mono n1 n2 t h hp.2⟩

-- ===================================================================
-- Behaviour characterisations of the services
-- ===================================================================

/-- Everything `rotate_commit` can do to the store, and its error returns:
the token relation is unchanged, or the presented row is marked used, or
additionally the replacement row is appended; the only error dict it
returns is "Token rotation failed", with the store either untouched
(mark-used patch rejected) or holding the spent presented token (creation
of the replacement rejected). -/
theorem rotate_commit_spec (now : Nat) (f : RefreshFaults) (newId : Nat)
    (nr nh : String) (tr : TokenRow) (sess : SessionRow) (user : UserRow)
    (st : Store) :
    ((rotate_commit now f newId nr nh tr sess user st).2.tokens = st.tokens ∨
     (rotate_commit now f newId nr nh tr sess user st).2.tokens
        = markUsedTokens st.tokens tr.id now ∨
     (rotate_commit now f newId nr nh tr sess user st).2.tokens
        = markUsedTokens st.tokens tr.id now ++ [rotNewToken now newId tr.session_id nh]) ∧
    (∀ (b : Bool) (m : String) (st2 : Store),
      rotate_commit now f newId nr nh tr sess user st
          = (ROutcome.returns b (RefreshValue.errorDict m), st2) →
      m = "Token rotation failed" ∧ (st2 = st ∨ st2 = markTokenUsed st tr.id now)) := by
  unfold rotate_commit
  cases hmu : f.markUsed <;> cases hct : f.createToken <;> cases hts : f.touchSession <;>
    constructor <;>
      simp [call_generate_user_access_token, markTokenUsed, insertToken,
        touchSessionRows, rotNewToken]

/-- The token relation after `rotate_afterLookup`: unchanged, or (when the
snapshot row looked active) marked used, possibly with the replacement
appended. -/
theorem rotate_afterLookup_tokens (sha : String → List Nat) (b64 : List Nat → String)
    (now : Nat) (f : RefreshFaults) (newId : Nat) (newRaw : List Nat)
    (tr : TokenRow) (st : Store) :
    (rotate_afterLookup sha b64 now f newId newRaw tr st).2.tokens = st.tokens ∨
    (tokenActive now tr = true ∧
      ((rotate_afterLookup sha b64 now f newId newRaw tr st).2.tokens
          = markUsedTokens st.tokens tr.id now ∨
       ∃ hh, (rotate_afterLookup sha b64 now f newId newRaw tr st).2.tokens
          = markUsedTokens st.tokens tr.id now
              ++ [rotNewToken now newId tr.session_id hh])) := by
  unfold rotate_afterLookup
  rcases hu : tr.used_at with _ | u
  · rcases hr : tr.revoked_at with _ | r
    · rw [if_neg (by simp)]
      cases hexp : tokenExpired now tr
      case false =>
        rw [if_neg (by simp)]
        have hact : tokenActive now tr = true := by
          simp [tokenActive, hu, hr, hexp]
        cases hgs : f.getSession
        case netRaise => exact Or.inl rfl
        case httpFail => exact Or.inl rfl
        case ok =>
          cases hfs : findSessionsById st tr.session_id
          case nil => exact Or.inl rfl
          case cons sess rest =>
            dsimp only
            cases hsr : sess.revoked_at.isSome
            case true => rw [if_pos rfl]; exact Or.inl rfl
            case false =>
              rw [if_neg (by simp)]
              cases hse : sessionExpired now sess
              case true => rw [if_pos rfl]; exact Or.inl rfl
              case false =>
                rw [if_neg (by simp)]
                cases hgu : f.getUser
                case netRaise => exact Or.inl rfl
                case httpFail => exact Or.inl rfl
                case ok =>
                  cases hfu : findUsersById st sess.user_id
                  case nil => exact Or.inl rfl
                  case cons user urest =>
                    rcases (rotate_commit_spec now f newId
                        (generate_refresh_token_rot sha b64 newRaw).1
                        (bytesHex (generate_refresh_token_rot sha b64 newRaw).2)
                        tr sess user st).1 with h1 | h1 | h1
                    · exact Or.inl h1
                    · exact Or.inr ⟨hact, Or.inl h1⟩
                    · exact Or.inr ⟨hact, Or.inr ⟨_, h1⟩⟩
      case true =>
        rw [if_pos rfl]
        exact Or.inl rfl
    · rw [if_pos (by simp)]
      cases hrv : f.revokeSession
      case netRaise => exact Or.inl rfl
      case httpFail => exact Or.inl rfl
      case ok => exact Or.inl rfl
  · rw [if_pos (by simp)]
    cases hrv : f.revokeSession
    case netRaise => exact Or.inl rfl
    case httpFail => exact Or.inl rfl
    case ok => exact Or.inl rfl

/-- The error dicts `rotate_afterLookup` can return, with the store each
leaves behind: every failure leaves the store untouched except the replay
response (which revokes the owning session) and the
createToken-rejected rotation failure (which has marked the presented
token used). -/
theorem rotate_afterLookup_err (sha : String → List Nat) (b64 : List Nat → String)
    (now : Nat) (f : RefreshFaults) (newId : Nat) (newRaw : List Nat)
    (tr : TokenRow) (st : Store) (b : Bool) (m : String) (st2 : Store)
    (h : rotate_afterLookup sha b64 now f newId newRaw tr st
          = (ROutcome.returns b (RefreshValue.errorDict m), st2)) :
    st2 = st ∨
    (m = "Session revoked due to token reuse"
        ∧ st2 = revokeSessionRows st tr.session_id now) ∨
    (m = "Token rotation failed" ∧ st2 = markTokenUsed st tr.id now) := by
  unfold rotate_afterLookup at h
  rcases hu : tr.used_at with _ | u
  case _ =>
    rcases hr : tr.revoked_at with _ | r
    case _ =>
      rw [hu, hr, if_neg (by simp)] at h
      cases hexp : tokenExpired now tr
      case false =>
        rw [hexp, if_neg (by simp)] at h
        cases hgs : f.getSession
        case netRaise => rw [hgs] at h; simp at h
        case httpFail =>
          rw [hgs] at h
          simp only [Prod.mk.injEq] at h
          exact Or.inl h.2.symm
        case ok =>
          rw [hgs] at h
          cases hfs : findSessionsById st tr.session_id
          case nil =>
            rw [hfs] at h
            simp only [Prod.mk.injEq] at h
            exact Or.inl h.2.symm
          case cons sess rest =>
            rw [hfs] at h
            dsimp only at h
            cases hsr : sess.revoked_at.isSome
            case true =>
              rw [hsr, if_pos rfl] at h
              simp only [Prod.mk.injEq] at h
              exact Or.inl h.2.symm
            case false =>
              rw [hsr, if_neg (by simp)] at h
              cases hse : sessionExpired now sess
              case true =>
                rw [hse, if_pos rfl] at h
                simp only [Prod.mk.injEq] at h
                exact Or.inl h.2.symm
              case false =>
                rw [hse, if_neg (by simp)] at h
                cases hgu : f.getUser
                case netRaise => rw [hgu] at h; simp at h
                case httpFail =>
                  rw [hgu] at h
                  simp only [Prod.mk.injEq] at h
                  exact Or.inl h.2.symm
                case ok =>
                  rw [hgu] at h
                  cases hfu : findUsersById st sess.user_id
                  case nil =>
                    rw [hfu] at h
                    simp only [Prod.mk.injEq] at h
                    exact Or.inl h.2.symm
                  case cons user urest =>
                    rw [hfu] at h
                    dsimp only at h
                    have hc := (rotate_commit_spec now f newId
                        (generate_refresh_token_rot sha b64 newRaw).1
                        (bytesHex (generate_refresh_token_rot sha b64 newRaw).2)
                        tr sess user st).2 b m st2 h
                    rcases hc.2 with h2 | h2
                    · exact Or.inl h2
                    · exact Or.inr (Or.inr ⟨hc.1, h2⟩)
      case true =>
        rw [hexp, if_pos rfl] at h
        simp only [Prod.mk.injEq] at h
        exact Or.inl h.2.symm
    case _ =>
      rw [hr, if_pos (by simp)] at h
      cases hrv : f.revokeSession
      case netRaise => rw [hrv] at h; simp at h
      case httpFail =>
        rw [hrv] at h
        simp only [Prod.mk.injEq, ROutcome.returns.injEq,
          RefreshValue.errorDict.injEq] at h
        exact Or.inl h.2.symm
      case ok =>
        rw [hrv] at h
        simp only [Prod.mk.injEq, ROutcome.returns.injEq,
          RefreshValue.errorDict.injEq] at h
        exact Or.inr (Or.inl ⟨h.1.2.symm, h.2.symm⟩)
  case _ =>
    rw [hu, if_pos (by simp)] at h
    cases hrv : f.revokeSession
    case netRaise => rw [hrv] at h; simp at h
    case httpFail =>
      rw [hrv] at h
      simp only [Prod.mk.injEq, ROutcome.returns.injEq,
        RefreshValue.errorDict.injEq] at h
      exact Or.inl h.2.symm
    case ok =>
      rw [hrv] at h
      simp only [Prod.mk.injEq, ROutcome.returns.injEq,
        RefreshValue.errorDict.injEq] at h
      exact Or.inr (Or.inl ⟨h.1.2.symm, h.2.symm⟩)

theorem head_findTokensByHash_mem (st : Store) (hh : String) (tr : TokenRow)
    (rest : List TokenRow) (h : findTokensByHash st hh = tr :: rest) :
    tr ∈ st.tokens := by
  have hmem : tr ∈ findTokensByHash st hh := by
    rw [h]
    exact List.mem_cons_self tr rest
  exact List.mem_of_mem_filter hmem

/-- The token relation after a full `refresh` call: unchanged, or an active
stored row is marked used, possibly with the replacement appended. -/
theorem refresh_tokens (sha : String → List Nat) (b64 : List Nat → String)
    (now : Nat) (f : RefreshFaults) (newId : Nat) (newRaw : List Nat)
    (rt : String) (st : Store) :
    (refresh sha b64 now f newId newRaw rt st).2.tokens = st.tokens ∨
    ∃ tr, tr ∈ st.tokens ∧ tokenActive now tr = true ∧
      ((refresh sha b64 now f newId newRaw rt st).2.tokens
          = markUsedTokens st.tokens tr.id now ∨
       ∃ hh, (refresh sha b64 now f newId newRaw rt st).2.tokens
          = markUsedTokens st.tokens tr.id now
              ++ [rotNewToken now newId tr.session_id hh]) := by
  unfold refresh
  cases hl : f.lookupToken
  case netRaise => exact Or.inl rfl
  case httpFail => exact Or.inl rfl
  case ok =>
    cases hf : findTokensByHash st (bytesHex (hash_token sha rt))
    case nil => exact Or.inl rfl
    case cons tr rest =>
      dsimp only
      rcases rotate_afterLookup_tokens sha b64 now f newId newRaw tr st
        with h1 | ⟨hact, h2⟩
      · exact Or.inl h1
      · exact Or.inr ⟨tr, head_findTokensByHash_mem st _ tr rest hf, hact, h2⟩

/-- The error dicts a full `refresh` call can return, with the store each
leaves behind. -/
theorem refresh_err (sha : String → List Nat) (b64 : List Nat → String)
    (now : Nat) (f : RefreshFaults) (newId : Nat) (newRaw : List Nat)
    (rt : String) (st : Store) (b : Bool) (m : String) (st2 : Store)
    (h : refresh sha b64 now f newId newRaw rt st
          = (ROutcome.returns b (RefreshValue.errorDict m), st2)) :
    st2 = st ∨
    ∃ tr, tr ∈ st.tokens ∧
      ((m = "Session revoked due to token reuse"
          ∧ st2 = revokeSessionRows st tr.session_id now) ∨
       (m = "Token rotation failed" ∧ st2 = markTokenUsed st tr.id now)) := by
  unfold refresh at h
  cases hl : f.lookupToken <;> rw [hl] at h
  case netRaise => simp at h
  case httpFail =>
    simp only [Prod.mk.injEq] at h
    exact Or.inl h.2.symm
  case ok =>
    cases hf : findTokensByHash st (bytesHex (hash_token sha rt)) <;> rw [hf] at h
    case nil =>
      simp only [Prod.mk.injEq] at h
      exact Or.inl h.2.symm
    case cons tr rest =>
      dsimp only at h
      rcases rotate_afterLookup_err sha b64 now f newId newRaw tr st b m st2 h
        with h1 | h1 | h1
      · exact Or.inl h1
      · exact Or.inr ⟨tr, head_findTokensByHash_mem st _ tr rest hf, Or.inl h1⟩
      · exact Or.inr ⟨tr, head_findTokensByHash_mem st _ tr rest hf, Or.inr h1⟩

/-- The token relation after `authenticate`: unchanged, or the one initial
token of the freshly created session is appended. -/
theorem authenticate_tokens (now : Nat) (identifier password : Option String)
    (verify : String → String → VerifyOutcome) (f : AuthFaults)
    (newSessionId newTokenId : Nat) (sha : String → List Nat)
    (b64 : List Nat → String) (newRaw : List Nat) (ua ip : String) (st : Store) :
    (authenticate now identifier password verify f newSessionId newTokenId
        sha b64 newRaw ua ip st).2.tokens = st.tokens ∨
    (authenticate now identifier password verify f newSessionId newTokenId
        sha b64 newRaw ua ip st).2.tokens
      = st.tokens ++ [loginNewToken now newTokenId newSessionId
          (generate_refresh_token_login sha b64 newRaw).2] := by
  unfold authenticate
  cases hip : (falsy identifier || falsy password)
  case true => rw [if_pos rfl]; exact Or.inl rfl
  case false =>
    rw [if_neg (by simp)]
    cases hrpc : f.rpcLookup
    case netRaise => exact Or.inl rfl
    case httpFail => exact Or.inl rfl
    case ok =>
      cases hfu : st.users.filter (fun u => u.identifier = identifier.getD "")
      case nil => exact Or.inl rfl
      case cons user urest =>
        dsimp only
        cases hv : verify user.password_hash (password.getD "")
        case mismatch => exact Or.inl rfl
        case raisesOther => exact Or.inl rfl
        case ok =>
          cases hcs : f.createSession
          case netRaise => exact Or.inl rfl
          case httpFail => exact Or.inl rfl
          case ok =>
            cases hct : f.createToken
            case netRaise => exact Or.inl rfl
            case httpFail => exact Or.inl rfl
            case ok => exact Or.inr rfl

/-- `authenticate` with correct credentials and no store faults: the exact
result (the issue-access-token step raises TypeError, caught and reported)
and the exact final store. -/
theorem authenticate_allOk (now : Nat) (identifier password : Option String)
    (verify : String → String → VerifyOutcome) (newSessionId newTokenId : Nat)
    (sha : String → List Nat) (b64 : List Nat → String) (newRaw : List Nat)
    (ua ip : String) (st : Store) (user : UserRow) (urest : List UserRow)
    (hid : falsy identifier = false) (hpw : falsy password = false)
    (hfu : st.users.filter (fun u => u.identifier = identifier.getD "") = user :: urest)
    (hv : verify user.password_hash (password.getD "") = VerifyOutcome.ok) :
    authenticate now identifier password verify allOkAuth newSessionId newTokenId
        sha b64 newRaw ua ip st
      = ((false, AuthValue.errorDict "Access token generation failed"),
         insertToken (insertSession st (loginNewSession now newSessionId user.id ua ip))
           (loginNewToken now newTokenId newSessionId
             (generate_refresh_token_login sha b64 newRaw).2)) := by
  unfold authenticate
  rw [hid, hpw, if_neg (by simp)]
  have hrpc : allOkAuth.rpcLookup = CallFate.ok := rfl
  rw [hrpc, hfu]
  dsimp only
  rw [hv]
  rfl

-- ===================================================================
-- Preservation of the chain invariant
-- ===================================================================

theorem refresh_preserves_invariant (sha : String → List Nat)
    (b64 : List Nat → String) (now : Nat) (f : RefreshFaults) (newId : Nat)
    (newRaw : List Nat) (rt : String) (st : Store)
    (hinv : ActiveInvariant now st) :
    ActiveInvariant now (refresh sha b64 now f newId newRaw rt st).2 := by
  intro sid
  rcases refresh_tokens sha b64 now f newId newRaw rt st
    with h1 | ⟨tr, hmem, hact, h2 | ⟨hh, h2⟩⟩
  · rw [h1]; exact hinv sid
  · rw [h2]
    exact le_trans (activeOf_markUsed_le now st.tokens tr.id now sid) (hinv sid)
  · rw [h2, activeOf_append]
    by_cases hsid : tr.session_id = sid
    · subst hsid
      rw [activeOf_markUsed_self now st.tokens tr hmem hact (hinv tr.session_id)]
      rw [List.nil_append]
      split
      · simp
      · simp
    · rw [if_neg]
      · rw [List.append_nil]
        exact le_trans (activeOf_markUsed_le now st.tokens tr.id now sid) (hinv sid)
      · intro hcon
        exact hsid hcon.1

theorem authenticate_preserves_invariant (now : Nat)
    (identifier password : Option String)
    (verify : String → String → VerifyOutcome) (f : AuthFaults)
    (newSessionId newTokenId : Nat) (sha : String → List Nat)
    (b64 : List Nat → String) (newRaw : List Nat) (ua ip : String) (st : Store)
    (hfresh : ∀ t ∈ st.tokens, t.session_id ≠ newSessionId)
    (hinv : ActiveInvariant now st) :
    ActiveInvariant now (authenticate now identifier password verify f
      newSessionId newTokenId sha b64 newRaw ua ip st).2 := by
  intro sid
  rcases authenticate_tokens now identifier password verify f newSessionId
    newTokenId sha b64 newRaw ua ip st with h1 | h1
  · rw [h1]; exact hinv sid
  · rw [h1, activeOf_append]
    by_cases hsid : newSessionId = sid
    · subst hsid
      have hzero : activeOf now st.tokens newSessionId = [] := by
        rw [activeOf, List.filter_eq_nil_iff]
        intro t hmem hcon
        simp only [Bool.and_eq_true, decide_eq_true_eq] at hcon
        exact hfresh t hmem hcon.1
      rw [hzero, List.nil_append]
      split
      · simp
      · simp
    · rw [if_neg]
      · rw [List.append_nil]
        exact hinv sid
      · intro hcon
        exact hsid hcon.1

theorem opStep_preserves_invariant (now : Nat) (st st2 : Store)
    (h : OpStep now st st2) (hinv : ActiveInvariant now st) :
    ActiveInvariant now st2 := by
  cases h with
  | auth identifier password verify f newSessionId newTokenId sha b64
      newRaw ua ip st hfresh =>
    exact authenticate_preserves_invariant now identifier password verify f
      newSessionId newTokenId sha b64 newRaw ua ip st hfresh hinv
  | rot sha b64 f newId newRaw rt st =>
    exact refresh_preserves_invariant sha b64 now f newId newRaw rt st hinv

theorem reachable_preserves_invariant (n0 n1 : Nat) (st0 st1 : Store)
    (h : Reachable n0 st0 n1 st1) (hinv : ActiveInvariant n0 st0) :
    ActiveInvariant n1 st1 := by
  induction h with
  | base _ => exact hinv
  | step na nb sta stb stc hreach hle hop ih =>
    have hb : ActiveInvariant nb stb := fun sid =>
      le_trans (activeOf_length_mono_time na nb stb.tokens sid hle) (ih hinv sid)
    exact opStep_preserves_invariant nb stb stc hop hb

-- ===================================================================
-- Claim theorems
-- ===================================================================

/-- C9: the digest persisted at login (`_generate_refresh_token` of
Login.py stores `hexdigest()`) equals the key rotation queries by
(`_hash_token(...).hex()` in refresh_service.py) for the same raw secret:
a secret minted at login is found by the subsequent rotation's lookup,
whatever the digest and base64 encoder do. -/
theorem c9_login_digest_matches_rotation_lookup (sha : String → List Nat)
    (b64 : List Nat → String) (raw : List Nat) (st : Store) :
    (generate_refresh_token_login sha b64 raw).2
      = bytesHex (hash_token sha (generate_refresh_token_login sha b64 raw).1) ∧
    findTokensByHash st
        (bytesHex (hash_token sha (generate_refresh_token_login sha b64 raw).1))
      = st.tokens.filter
          (fun t => t.token_hash = (generate_refresh_token_login sha b64 raw).2) :=
  ⟨rfl, rfl⟩

/-- C6: presenting a never-used, never-revoked token whose own expiry has
passed returns "Refresh token expired" and performs no write at all — the
final store is exactly the initial one, so in particular the owning session
is not revoked. -/
theorem c6_expired_token_no_write (sha : String → List Nat)
    (b64 : List Nat → String) (now : Nat) (f : RefreshFaults) (newId : Nat)
    (newRaw : List Nat) (rt : String) (st : Store) (tr : TokenRow)
    (rest : List TokenRow) (e : Nat)
    (hl : f.lookupToken = CallFate.ok)
    (hfind : findTokensByHash st (bytesHex (hash_token sha rt)) = tr :: rest)
    (hu : tr.used_at = none) (hr : tr.revoked_at = none)
    (he : tr.expires_at = some e) (hlt : e < now) :
    refresh sha b64 now f newId newRaw rt st
      = (ROutcome.returns false (RefreshValue.errorDict "Refresh token expired"), st) := by
  have hexp : tokenExpired now tr = true := by
    simp [tokenExpired, he, hlt]
  unfold refresh
  rw [hl, hfind]
  dsimp only
  unfold rotate_afterLookup
  rw [hu, hr, if_neg (by simp), hexp, if_pos rfl]

/-- Witness for C6: a concrete expired-but-never-used token. -/
theorem c6_expired_token_no_write_witness :
    refresh dummySha dummyB64 1000 allOkRot 101 [0] "t" expiredStore
      = (ROutcome.returns false (RefreshValue.errorDict "Refresh token expired"),
         expiredStore) :=
  c6_expired_token_no_write dummySha dummyB64 1000 allOkRot 101 [0] "t"
    expiredStore expiredTok [] 50 rfl (by decide) rfl rfl rfl (by decide)

/-- C10: when replay is detected, the reuse error is returned without
inspecting the outcome of the session-revocation PATCH: if the store
rejects that update, `refresh` still reports "Session revoked due to token
reuse" while the store — in particular the session's revoked_at — is left
exactly as it was. -/
theorem c10_reuse_error_unconditional (sha : String → List Nat)
    (b64 : List Nat → String) (now : Nat) (f : RefreshFaults) (newId : Nat)
    (newRaw : List Nat) (rt : String) (st : Store) (tr : TokenRow)
    (rest : List TokenRow)
    (hl : f.lookupToken = CallFate.ok)
    (hfind : findTokensByHash st (bytesHex (hash_token sha rt)) = tr :: rest)
    (hspent : (tr.used_at.isSome || tr.revoked_at.isSome) = true)
    (hrv : f.revokeSession = CallFate.httpFail) :
    refresh sha b64 now f newId newRaw rt st
      = (ROutcome.returns false
          (RefreshValue.errorDict "Session revoked due to token reuse"), st) := by
  unfold refresh
  rw [hl, hfind]
  dsimp only
  unfold rotate_afterLookup
  rw [if_pos hspent, hrv]

/-- Witness for C10: the revocation PATCH is rejected, the reuse error is
reported anyway and the store is untouched. -/
theorem c10_reuse_error_unconditional_witness :
    refresh dummySha dummyB64 1000
        { allOkRot with revokeSession := CallFate.httpFail } 101 [0] "t" spentStore
      = (ROutcome.returns false
          (RefreshValue.errorDict "Session revoked due to token reuse"), spentStore) :=
  c10_reuse_error_unconditional dummySha dummyB64 1000
    { allOkRot with revokeSession := CallFate.httpFail } 101 [0] "t" spentStore
    spentTok [] rfl (by decide) (by decide) rfl

/-- C3: a presented secret whose stored row is already spent or revoked
triggers replay handling — the owning session's revoked_at is set and
"Session revoked due to token reuse" is returned — regardless of the
row's expires_at (the status check precedes the expiry check, which is
why no expiry hypothesis appears in the first conjunct); moreover the
replay response is the only failure return whose failure branch itself
writes: every other error return leaves the store exactly as it was,
except "Token rotation failed", whose only store change is the mark-used
write of the attempted rotation (its session relation is untouched, so no
failure other than replay ever revokes anything). -/
theorem c3_replay_revokes_owning_session :
    (∀ (sha : String → List Nat) (b64 : List Nat → String) (now : Nat)
        (f : RefreshFaults) (newId : Nat) (newRaw : List Nat) (rt : String)
        (st : Store) (tr : TokenRow) (rest : List TokenRow),
      f.lookupToken = CallFate.ok →
      findTokensByHash st (bytesHex (hash_token sha rt)) = tr :: rest →
      (tr.used_at.isSome || tr.revoked_at.isSome) = true →
      f.revokeSession = CallFate.ok →
      refresh sha b64 now f newId newRaw rt st
        = (ROutcome.returns false
            (RefreshValue.errorDict "Session revoked due to token reuse"),
           revokeSessionRows st tr.session_id now)) ∧
    (∀ (sha : String → List Nat) (b64 : List Nat → String) (now : Nat)
        (f : RefreshFaults) (newId : Nat) (newRaw : List Nat) (rt : String)
        (st : Store) (b : Bool) (m : String) (st2 : Store),
      refresh sha b64 now f newId newRaw rt st
          = (ROutcome.returns b (RefreshValue.errorDict m), st2) →
      m ≠ "Session revoked due to token reuse" → m ≠ "Token rotation failed" →
      st2 = st) ∧
    (∀ (sha : String → List Nat) (b64 : List Nat → String) (now : Nat)
        (f : RefreshFaults) (newId : Nat) (newRaw : List Nat) (rt : String)
        (st : Store) (b : Bool) (m : String) (st2 : Store),
      refresh sha b64 now f newId newRaw rt st
          = (ROutcome.returns b (RefreshValue.errorDict m), st2) →
      m = "Token rotation failed" → st2.sessions = st.sessions) := by
  refine ⟨?_, ?_, ?_⟩
  · intro sha b64 now f newId newRaw rt st tr rest hl hfind hspent hrv
    unfold refresh
    rw [hl, hfind]
    dsimp only
    unfold rotate_afterLookup
    rw [if_pos hspent, hrv]
  · intro sha b64 now f newId newRaw rt st b m st2 h hm1 hm2
    rcases refresh_err sha b64 now f newId newRaw rt st b m st2 h
      with h1 | ⟨tr, _, h1 | h1⟩
    · exact h1
    · exact absurd h1.1 hm1
    · exact absurd h1.1 hm2
  · intro sha b64 now f newId newRaw rt st b m st2 h hm
    rcases refresh_err sha b64 now f newId newRaw rt st b m st2 h
      with h1 | ⟨tr, _, h1 | h1⟩
    · rw [h1]
    · exact absurd (h1.1.symm.trans hm) (by decide)
    · rw [h1.2]
      rfl

/-- Witness for C3: a concrete spent token; the session is revoked and the
reuse error returned. -/
theorem c3_replay_revokes_owning_session_witness :
    refresh dummySha dummyB64 1000 allOkRot 101 [0] "t" spentStore
      = (ROutcome.returns false
          (RefreshValue.errorDict "Session revoked due to token reuse"),
         revokeSessionRows spentStore 10 1000) :=
  c3_replay_revokes_owning_session.1 dummySha dummyB64 1000 allOkRot 101 [0] "t"
    spentStore spentTok [] rfl (by decide) (by decide) rfl

/-- C5: every failing credential path of `authenticate` — empty identifier
or secret, lookup failure (non-200), user not found (empty result), and
password mismatch — returns the one literal payload
(false, {"error": "Invalid credentials"}), so any two such inputs are
client-indistinguishable (the HTTP layer maps every failure result to 401
uniformly). -/
theorem c5_uniform_invalid_credentials :
    (∀ (now : Nat) (identifier password : Option String)
        (verify : String → String → VerifyOutcome) (f : AuthFaults)
        (nsid ntid : Nat) (sha : String → List Nat) (b64 : List Nat → String)
        (newRaw : List Nat) (ua ip : String) (st : Store),
      (falsy identifier || falsy password) = true →
      (authenticate now identifier password verify f nsid ntid sha b64 newRaw
          ua ip st).1
        = (false, AuthValue.errorDict "Invalid credentials")) ∧
    (∀ (now : Nat) (identifier password : Option String)
        (verify : String → String → VerifyOutcome) (f : AuthFaults)
        (nsid ntid : Nat) (sha : String → List Nat) (b64 : List Nat → String)
        (newRaw : List Nat) (ua ip : String) (st : Store),
      (falsy identifier || falsy password) = false →
      f.rpcLookup = CallFate.httpFail →
      (authenticate now identifier password verify f nsid ntid sha b64 newRaw
          ua ip st).1
        = (false, AuthValue.errorDict "Invalid credentials")) ∧
    (∀ (now : Nat) (identifier password : Option String)
        (verify : String → String → VerifyOutcome) (f : AuthFaults)
        (nsid ntid : Nat) (sha : String → List Nat) (b64 : List Nat → String)
        (newRaw : List Nat) (ua ip : String) (st : Store),
      (falsy identifier || falsy password) = false →
      f.rpcLookup = CallFate.ok →
      st.users.filter (fun u => u.identifier = identifier.getD "") = [] →
      (authenticate now identifier password verify f nsid ntid sha b64 newRaw
          ua ip st).1
        = (false, AuthValue.errorDict "Invalid credentials")) ∧
    (∀ (now : Nat) (identifier password : Option String)
        (verify : String → String → VerifyOutcome) (f : AuthFaults)
        (nsid ntid : Nat) (sha : String → List Nat) (b64 : List Nat → String)
        (newRaw : List Nat) (ua ip : String) (st : Store)
        (user : UserRow) (urest : List UserRow),
      (falsy identifier || falsy password) = false →
      f.rpcLookup = CallFate.ok →
      st.users.filter (fun u => u.identifier = identifier.getD "") = user :: urest →
      verify user.password_hash (password.getD "") = VerifyOutcome.mismatch →
      (authenticate now identifier password verify f nsid ntid sha b64 newRaw
          ua ip st).1
        = (false, AuthValue.errorDict "Invalid credentials")) := by
  refine ⟨?_, ?_, ?_, ?_⟩
  · intro now identifier password verify f nsid ntid sha b64 newRaw ua ip st hcond
    unfold authenticate
    rw [if_pos hcond]
  · intro now identifier password verify f nsid ntid sha b64 newRaw ua ip st hcond hrpc
    unfold authenticate
    rw [if_neg (by simp [hcond]), hrpc]
  · intro now identifier password verify f nsid ntid sha b64 newRaw ua ip st hcond hrpc hfu
    unfold authenticate
    rw [if_neg (by simp [hcond]), hrpc, hfu]
  · intro now identifier password verify f nsid ntid sha b64 newRaw ua ip st
      user urest hcond hrpc hfu hv
    unfold authenticate
    rw [if_neg (by simp [hcond]), hrpc, hfu]
    dsimp only
    rw [hv]

/-- Witness for C5: the four concrete failing logins all return the same
payload. -/
theorem c5_uniform_invalid_credentials_witness :
    (authenticate 1000 none (some "pw") (fun _ _ => VerifyOutcome.ok)
        allOkAuth 20 200 dummySha dummyB64 [5] "" "" baseStore).1
      = (false, AuthValue.errorDict "Invalid credentials") ∧
    (authenticate 1000 (some "alice") (some "pw") (fun _ _ => VerifyOutcome.ok)
        { allOkAuth with rpcLookup := CallFate.httpFail } 20 200 dummySha dummyB64
        [5] "" "" baseStore).1
      = (false, AuthValue.errorDict "Invalid credentials") ∧
    (authenticate 1000 (some "nobody") (some "pw") (fun _ _ => VerifyOutcome.ok)
        allOkAuth 20 200 dummySha dummyB64 [5] "" "" baseStore).1
      = (false, AuthValue.errorDict "Invalid credentials") ∧
    (authenticate 1000 (some "alice") (some "wrong")
        (fun _ _ => VerifyOutcome.mismatch) allOkAuth 20 200 dummySha dummyB64
        [5] "" "" baseStore).1
      = (false, AuthValue.errorDict "Invalid credentials") :=
  ⟨c5_uniform_invalid_credentials.1 1000 none (some "pw")
      (fun _ _ => VerifyOutcome.ok) allOkAuth 20 200 dummySha dummyB64 [5] "" ""
      baseStore (by decide),
   c5_uniform_invalid_credentials.2.1 1000 (some "alice") (some "pw")
      (fun _ _ => VerifyOutcome.ok)
      { allOkAuth with rpcLookup := CallFate.httpFail } 20 200 dummySha dummyB64
      [5] "" "" baseStore (by decide) rfl,
   c5_uniform_invalid_credentials.2.2.1 1000 (some "nobody") (some "pw")
      (fun _ _ => VerifyOutcome.ok) allOkAuth 20 200 dummySha dummyB64 [5] "" ""
      baseStore (by decide) rfl (by decide),
   c5_uniform_invalid_credentials.2.2.2 1000 (some "alice") (some "wrong")
      (fun _ _ => VerifyOutcome.mismatch) allOkAuth 20 200 dummySha dummyB64
      [5] "" "" baseStore aliceUser [] (by decide) rfl (by decide) rfl⟩

/-- C7: when the mark-used PATCH succeeded but the POST of the replacement
token is rejected, `refresh` returns "Token rotation failed" exactly once
(no retry), the final store is precisely the initial one with the presented
token marked used (the write is not undone), the session relation is
untouched, and — when the presented token was the session's only active
one — the session is left with no active refresh token. -/
theorem c7_rotation_failure_fail_closed (sha : String → List Nat)
    (b64 : List Nat → String) (now : Nat) (f : RefreshFaults) (newId : Nat)
    (newRaw : List Nat) (rt : String) (st : Store) (tr : TokenRow)
    (rest : List TokenRow) (sess : SessionRow) (srest : List SessionRow)
    (user : UserRow) (urest : List UserRow)
    (hl : f.lookupToken = CallFate.ok)
    (hfind : findTokensByHash st (bytesHex (hash_token sha rt)) = tr :: rest)
    (hu : tr.used_at = none) (hr : tr.revoked_at = none)
    (hnexp : tokenExpired now tr = false)
    (hgs : f.getSession = CallFate.ok)
    (hfs : findSessionsById st tr.session_id = sess :: srest)
    (hsrev : sess.revoked_at = none)
    (hsexp : sessionExpired now sess = false)
    (hgu : f.getUser = CallFate.ok)
    (hfus : findUsersById st sess.user_id = user :: urest)
    (hmu : f.markUsed = CallFate.ok)
    (hct : f.createToken = CallFate.httpFail) :
    refresh sha b64 now f newId newRaw rt st
      = (ROutcome.returns false (RefreshValue.errorDict "Token rotation failed"),
         markTokenUsed st tr.id now) ∧
    ((activeOf now st.tokens tr.session_id).length ≤ 1 →
      activeOf now (markTokenUsed st tr.id now).tokens tr.session_id = []) ∧
    (markTokenUsed st tr.id now).sessions = st.sessions := by
  refine ⟨?_, ?_, rfl⟩
  · unfold refresh
    rw [hl, hfind]
    dsimp only
    unfold rotate_afterLookup
    rw [hu, hr, if_neg (by simp), hnexp, if_neg (by simp), hgs, hfs]
    dsimp only
    rw [hsrev, if_neg (by simp), hsexp, if_neg (by simp), hgu, hfus]
    dsimp only
    unfold rotate_commit
    rw [hmu, hct]
  · intro hlen
    exact activeOf_markUsed_self now st.tokens tr
      (head_findTokensByHash_mem st _ tr rest hfind)
      (by simp [tokenActive, hu, hr, hnexp]) hlen

/-- Witness for C7: the concrete active token is spent, no replacement is
stored, and the session has no active token left. -/
theorem c7_rotation_failure_fail_closed_witness :
    refresh dummySha dummyB64 1000
        { allOkRot with createToken := CallFate.httpFail } 101 [0] "t" baseStore
      = (ROutcome.returns false (RefreshValue.errorDict "Token rotation failed"),
         markTokenUsed baseStore 100 1000) ∧
    activeOf 1000 (markTokenUsed baseStore 100 1000).tokens 10 = [] :=
  have h := c7_rotation_failure_fail_closed dummySha dummyB64 1000
    { allOkRot with createToken := CallFate.httpFail } 101 [0] "t" baseStore
    activeTok [] liveSession [] aliceUser [] rfl (by decide) rfl rfl (by decide)
    rfl (by decide) rfl (by decide) rfl (by decide) rfl rfl
  ⟨h.1, h.2.1 (by decide)⟩

/-- C2: over every sequence of authenticate and rotate operations executed
at nondecreasing times — any credentials, any presented secrets, any call
fates — a store in which each session has at most one active RefreshToken
keeps that property (the chain invariant); and on the fault-free
correct-credentials path authenticate leaves exactly one active token for
the session it created. -/
theorem c2_at_most_one_active_token :
    (∀ (n0 n1 : Nat) (st0 st1 : Store), Reachable n0 st0 n1 st1 →
      ActiveInvariant n0 st0 → ActiveInvariant n1 st1) ∧
    (∀ (now : Nat) (identifier password : Option String)
        (verify : String → String → VerifyOutcome) (nsid ntid : Nat)
        (sha : String → List Nat) (b64 : List Nat → String) (newRaw : List Nat)
        (ua ip : String) (st : Store) (user : UserRow) (urest : List UserRow),
      falsy identifier = false → falsy password = false →
      st.users.filter (fun u => u.identifier = identifier.getD "") = user :: urest →
      verify user.password_hash (password.getD "") = VerifyOutcome.ok →
      (∀ t ∈ st.tokens, t.session_id ≠ nsid) →
      (activeOf now (authenticate now identifier password verify allOkAuth nsid
          ntid sha b64 newRaw ua ip st).2.tokens nsid).length = 1) := by
  constructor
  · exact reachable_preserves_invariant
  · intro now identifier password verify nsid ntid sha b64 newRaw ua ip st user
      urest hid hpw hfu hv hfresh
    rw [authenticate_allOk now identifier password verify nsid ntid sha b64
      newRaw ua ip st user urest hid hpw hfu hv]
    have ht : (insertToken
        (insertSession st (loginNewSession now nsid user.id ua ip))
        (loginNewToken now ntid nsid
          (generate_refresh_token_login sha b64 newRaw).2)).tokens
        = st.tokens ++ [loginNewToken now ntid nsid
            (generate_refresh_token_login sha b64 newRaw).2] := rfl
    rw [ht, activeOf_append]
    have hzero : activeOf now st.tokens nsid = [] := by
      rw [activeOf, List.filter_eq_nil_iff]
      intro t hmem hcon
      simp only [Bool.and_eq_true, decide_eq_true_eq] at hcon
      exact hfresh t hmem hcon.1
    rw [hzero, List.nil_append, if_pos]
    · rfl
    · refine ⟨rfl, ?_⟩
      simp only [tokenActive, loginNewToken, tokenExpired, expiry_after_days,
        Option.isNone_none, Bool.true_and, Bool.and_eq_true, Bool.not_eq_true',
        decide_eq_false_iff_not]
      omega

/-- Witness for C2: a one-rotation run from the base store keeps the
invariant at the rotated session, and a concrete fault-free login leaves
its fresh session with exactly one active token. -/
theorem c2_at_most_one_active_token_witness :
    (activeOf 1000 (refresh dummySha dummyB64 1000 allOkRot 101 [0] "t"
        baseStore).2.tokens 10).length ≤ 1 ∧
    (activeOf 1000 (authenticate 1000 (some "alice") (some "pw")
        (fun _ _ => VerifyOutcome.ok) allOkAuth 20 200 dummySha dummyB64 [5]
        "" "" baseStore).2.tokens 20).length = 1 :=
  ⟨c2_at_most_one_active_token.1 1000 1000 baseStore _
      (Reachable.step 1000 1000 1000 baseStore baseStore _
        (Reachable.base 1000 baseStore) (Nat.le_refl 1000)
        (OpStep.rot 1000 dummySha dummyB64 allOkRot 101 [0] "t" baseStore))
      (fun _ => length_filter_singleton_le_one _ _) 10,
   c2_at_most_one_active_token.2 1000 (some "alice") (some "pw")
      (fun _ _ => VerifyOutcome.ok) 20 200 dummySha dummyB64 [5] "" "" baseStore
      aliceUser [] rfl rfl (by decide) rfl (by decide)⟩

/-- C1 (code bug): the mark-used step (refresh_service.py lines 144-150) is
a plain PATCH filtered by row id only — not a conditional update on
used_at being null — so it also reports success on an already-spent row.
Consequence, evaluated here: `A` is a complete rotation of the base store;
`B` is the remainder of a concurrent rotation of the same secret whose
lookup snapshot was taken before A wrote (the stale-read interleaving).
B is not treated as replay, both executions mint a replacement token —
leaving the session with TWO active refresh tokens and its revoked_at
untouched — and neither returns success (both raise TypeError at the
access-token step), contradicting the claimed atomic conditional write
with exactly one success and one replay. -/
theorem c1_nonatomic_mark_used_double_mint :
    ((refresh dummySha dummyB64 1000 allOkRot 101 [0] "t" baseStore).1
      = ROutcome.raises PyExc.typeError) ∧
    ((refresh dummySha dummyB64 1000 allOkRot 101 [0] "t" baseStore).2.tokens
      = [{ activeTok with used_at := some 1000 }, rotNewToken 1000 101 10 "02"]) ∧
    ((rotate_afterLookup dummySha dummyB64 1000 allOkRot 102 [0, 0] activeTok
        (refresh dummySha dummyB64 1000 allOkRot 101 [0] "t" baseStore).2).1
      = ROutcome.raises PyExc.typeError) ∧
    ((rotate_afterLookup dummySha dummyB64 1000 allOkRot 102 [0, 0] activeTok
        (refresh dummySha dummyB64 1000 allOkRot 101 [0] "t" baseStore).2).1
      ≠ ROutcome.returns false
          (RefreshValue.errorDict "Session revoked due to token reuse")) ∧
    ((activeOf 1000 (rotate_afterLookup dummySha dummyB64 1000 allOkRot 102
        [0, 0] activeTok
        (refresh dummySha dummyB64 1000 allOkRot 101 [0] "t" baseStore).2).2.tokens
        10).length = 2) ∧
    ((rotate_afterLookup dummySha dummyB64 1000 allOkRot 102 [0, 0] activeTok
        (refresh dummySha dummyB64 1000 allOkRot 101 [0] "t" baseStore).2).2.sessions
      = [{ liveSession with last_used_at := some 1000 }]) := by
  decide

/-- C4 (code bug): jwt_tokens.generate_user_access_token accepts exactly
(user_id, role) and its claim set has no session field of any kind; both
call sites pass session_id (Login.py additionally p_role), so the call
raises TypeError: a fault-free correct-credentials login returns "Access
token generation failed" instead of tokens, a fault-free rotation raises
at its step 8, and the only claims the codec can produce are
sub/role/iss/aud/iat/exp — never a session binding. -/
theorem c4_access_token_lacks_session_binding :
    ((authenticate 1000 (some "alice") (some "pw") (fun _ _ => VerifyOutcome.ok)
        allOkAuth 20 200 dummySha dummyB64 [5] "" "" baseStore).1
      = (false, AuthValue.errorDict "Access token generation failed")) ∧
    ((refresh dummySha dummyB64 1000 allOkRot 102 [0, 0] "t" baseStore).1
      = ROutcome.raises PyExc.typeError) ∧
    (call_generate_user_access_token 1000
        { user_id := some 1, role := some "patient", p_role := none,
          session_id := some 10 }
      = Except.error PyExc.typeError) ∧
    (generate_user_access_token 1000 1 "patient"
      = Except.ok
          { sub := 1, role := "patient", iss := "medilink-auth",
            aud := "medilink", iat := 1000, exp := 1900 }) :=
  ⟨by decide, by decide, rfl, rfl⟩

/-- C8 (counterexample): a network failure or timeout on rotation's first
store call escapes `refresh` as an uncaught requests exception instead of
being returned as a StoreUnavailable-class error result. -/
theorem c8_network_failure_escapes_rotate :
    refresh dummySha dummyB64 1000
        { allOkRot with lookupToken := CallFate.netRaise } 101 [0] "t" baseStore
      = (ROutcome.raises PyExc.requestException, baseStore) := by
  decide

/-- C8 (amended): every store call of both services carries a bounded
5-second deadline; authenticate wraps each of its three store calls (the
login RPC, the sessions POST, the session_tokens POST) and fails closed
with an error result on a network failure or timeout; rotate does not — a
network failure at any of its seven store call sites (token lookup,
replay-revocation PATCH, session GET, user GET, mark-used PATCH,
replacement POST, last_used_at PATCH) propagates out of `refresh` as an
uncaught exception, with the store in whatever state the preceding writes
left it. -/
theorem c8_amended_timeouts_and_fail_closed :
    (∀ t ∈ authenticateCallTimeouts ++ refreshCallTimeouts, 0 < t ∧ t ≤ 5) ∧
    (∀ (now : Nat) (identifier password : Option String)
        (verify : String → String → VerifyOutcome) (f : AuthFaults)
        (nsid ntid : Nat) (sha : String → List Nat) (b64 : List Nat → String)
        (newRaw : List Nat) (ua ip : String) (st : Store),
      (falsy identifier || falsy password) = false →
      f.rpcLookup = CallFate.netRaise →
      (authenticate now identifier password verify f nsid ntid sha b64 newRaw
          ua ip st)
        = ((false, AuthValue.errorDict "Authentication service unavailable"), st)) ∧
    (∀ (now : Nat) (identifier password : Option String)
        (verify : String → String → VerifyOutcome) (f : AuthFaults)
        (nsid ntid : Nat) (sha : String → List Nat) (b64 : List Nat → String)
        (newRaw : List Nat) (ua ip : String) (st : Store)
        (user : UserRow) (urest : List UserRow),
      (falsy identifier || falsy password) = false →
      f.rpcLookup = CallFate.ok →
      st.users.filter (fun u => u.identifier = identifier.getD "") = user :: urest →
      verify user.password_hash (password.getD "") = VerifyOutcome.ok →
      f.createSession = CallFate.netRaise →
      (authenticate now identifier password verify f nsid ntid sha b64 newRaw
          ua ip st)
        = ((false, AuthValue.errorDict "Session creation failed"), st)) ∧
    (∀ (now : Nat) (identifier password : Option String)
        (verify : String → String → VerifyOutcome) (f : AuthFaults)
        (nsid ntid : Nat) (sha : String → List Nat) (b64 : List Nat → String)
        (newRaw : List Nat) (ua ip : String) (st : Store)
        (user : UserRow) (urest : List UserRow),
      (falsy identifier || falsy password) = false →
      f.rpcLookup = CallFate.ok →
      st.users.filter (fun u => u.identifier = identifier.getD "") = user :: urest →
      verify user.password_hash (password.getD "") = VerifyOutcome.ok →
      f.createSession = CallFate.ok →
      f.createToken = CallFate.netRaise →
      (authenticate now identifier password verify f nsid ntid sha b64 newRaw
          ua ip st)
        = ((false, AuthValue.errorDict "Token creation failed"),
           insertSession st (loginNewSession now nsid user.id ua ip))) ∧
    (∀ (sha : String → List Nat) (b64 : List Nat → String) (now : Nat)
        (f : RefreshFaults) (newId : Nat) (newRaw : List Nat) (rt : String)
        (st : Store),
      f.lookupToken = CallFate.netRaise →
      refresh sha b64 now f newId newRaw rt st
        = (ROutcome.raises PyExc.requestException, st)) ∧
    (∀ (sha : String → List Nat) (b64 : List Nat → String) (now : Nat)
        (f : RefreshFaults) (newId : Nat) (newRaw : List Nat) (rt : String)
        (st : Store) (tr : TokenRow) (rest : List TokenRow),
      f.lookupToken = CallFate.ok →
      findTokensByHash st (bytesHex (hash_token sha rt)) = tr :: rest →
      (tr.used_at.isSome || tr.revoked_at.isSome) = true →
      f.revokeSession = CallFate.netRaise →
      refresh sha b64 now f newId newRaw rt st
        = (ROutcome.raises PyExc.requestException, st)) ∧
    (∀ (sha : String → List Nat) (b64 : List Nat → String) (now : Nat)
        (f : RefreshFaults) (newId : Nat) (newRaw : List Nat) (rt : String)
        (st : Store) (tr : TokenRow) (rest : List TokenRow),
      f.lookupToken = CallFate.ok →
      findTokensByHash st (bytesHex (hash_token sha rt)) = tr :: rest →
      tr.used_at = none → tr.revoked_at = none →
      tokenExpired now tr = false →
      f.getSession = CallFate.netRaise →
      refresh sha b64 now f newId newRaw rt st
        = (ROutcome.raises PyExc.requestException, st)) ∧
    (∀ (sha : String → List Nat) (b64 : List Nat → String) (now : Nat)
        (f : RefreshFaults) (newId : Nat) (newRaw : List Nat) (rt : String)
        (st : Store) (tr : TokenRow) (rest : List TokenRow)
        (sess : SessionRow) (srest : List SessionRow),
      f.lookupToken = CallFate.ok →
      findTokensByHash st (bytesHex (hash_token sha rt)) = tr :: rest →
      tr.used_at = none → tr.revoked_at = none →
      tokenExpired now tr = false →
      f.getSession = CallFate.ok →
      findSessionsById st tr.session_id = sess :: srest →
      sess.revoked_at = none → sessionExpired now sess = false →
      f.getUser = CallFate.netRaise →
      refresh sha b64 now f newId newRaw rt st
        = (ROutcome.raises PyExc.requestException, st)) ∧
    (∀ (sha : String → List Nat) (b64 : List Nat → String) (now : Nat)
        (f : RefreshFaults) (newId : Nat) (newRaw : List Nat) (rt : String)
        (st : Store) (tr : TokenRow) (rest : List TokenRow)
        (sess : SessionRow) (srest : List SessionRow)
        (user : UserRow) (urest : List UserRow),
      f.lookupToken = CallFate.ok →
      findTokensByHash st (bytesHex (hash_token sha rt)) = tr :: rest →
      tr.used_at = none → tr.revoked_at = none →
      tokenExpired now tr = false →
      f.getSession = CallFate.ok →
      findSessionsById st tr.session_id = sess :: srest →
      sess.revoked_at = none → sessionExpired now sess = false →
      f.getUser = CallFate.ok →
      findUsersById st sess.user_id = user :: urest →
      f.markUsed = CallFate.netRaise →
      refresh sha b64 now f newId newRaw rt st
        = (ROutcome.raises PyExc.requestException, st)) ∧
    (∀ (sha : String → List Nat) (b64 : List Nat → String) (now : Nat)
        (f : RefreshFaults) (newId : Nat) (newRaw : List Nat) (rt : String)
        (st : Store) (tr : TokenRow) (rest : List TokenRow)
        (sess : SessionRow) (srest : List SessionRow)
        (user : UserRow) (urest : List UserRow),
      f.lookupToken = CallFate.ok →
      findTokensByHash st (bytesHex (hash_token sha rt)) = tr :: rest →
      tr.used_at = none → tr.revoked_at = none →
      tokenExpired now tr = false →
      f.getSession = CallFate.ok →
      findSessionsById st tr.session_id = sess :: srest →
      sess.revoked_at = none → sessionExpired now sess = false →
      f.getUser = CallFate.ok →
      findUsersById st sess.user_id = user :: urest →
      f.markUsed = CallFate.ok →
      f.createToken = CallFate.netRaise →
      refresh sha b64 now f newId newRaw rt st
        = (ROutcome.raises PyExc.requestException,
           markTokenUsed st tr.id now)) ∧
    (∀ (sha : String → List Nat) (b64 : List Nat → String) (now : Nat)
        (f : RefreshFaults) (newId : Nat) (newRaw : List Nat) (rt : String)
        (st : Store) (tr : TokenRow) (rest : List TokenRow)
        (sess : SessionRow) (srest : List SessionRow)
        (user : UserRow) (urest : List UserRow),
      f.lookupToken = CallFate.ok →
      findTokensByHash st (bytesHex (hash_token sha rt)) = tr :: rest →
      tr.used_at = none → tr.revoked_at = none →
      tokenExpired now tr = false →
      f.getSession = CallFate.ok →
      findSessionsById st tr.session_id = sess :: srest →
      sess.revoked_at = none → sessionExpired now sess = false →
      f.getUser = CallFate.ok →
      findUsersById st sess.user_id = user :: urest →
      f.markUsed = CallFate.ok →
      f.createToken = CallFate.ok →
      f.touchSession = CallFate.netRaise →
      refresh sha b64 now f newId newRaw rt st
        = (ROutcome.raises PyExc.requestException,
           insertToken (markTokenUsed st tr.id now)
             (rotNewToken now newId tr.session_id
               (bytesHex (generate_refresh_token_rot sha b64 newRaw).2)))) := by
  refine ⟨by decide, ?_, ?_, ?_, ?_, ?_, ?_, ?_, ?_, ?_, ?_⟩
  · intro now identifier password verify f nsid ntid sha b64 newRaw ua ip st
      hcond hrpc
    unfold authenticate
    rw [if_neg (by simp [hcond]), hrpc]
  · intro now identifier password verify f nsid ntid sha b64 newRaw ua ip st
      user urest hcond hrpc hfu hv hcs
    unfold authenticate
    rw [if_neg (by simp [hcond]), hrpc, hfu]
    dsimp only
    rw [hv, hcs]
  · intro now identifier password verify f nsid ntid sha b64 newRaw ua ip st
      user urest hcond hrpc hfu hv hcs hct
    unfold authenticate
    rw [if_neg (by simp [hcond]), hrpc, hfu]
    dsimp only
    rw [hv, hcs]
    dsimp only
    rw [hct]
  · intro sha b64 now f newId newRaw rt st hl
    unfold refresh
    rw [hl]
  · intro sha b64 now f newId newRaw rt st tr rest hl hfind hspent hrv
    unfold refresh
    rw [hl, hfind]
    dsimp only
    unfold rotate_afterLookup
    rw [if_pos hspent, hrv]
  · intro sha b64 now f newId newRaw rt st tr rest hl hfind hu hr hnexp hgs
    unfold refresh
    rw [hl, hfind]
    dsimp only
    unfold rotate_afterLookup
    rw [hu, hr, if_neg (by simp), hnexp, if_neg (by simp), hgs]
  · intro sha b64 now f newId newRaw rt st tr rest sess srest hl hfind hu hr
      hnexp hgs hfs hsrev hsexp hgu
    unfold refresh
    rw [hl, hfind]
    dsimp only
    unfold rotate_afterLookup
    rw [hu, hr, if_neg (by simp), hnexp, if_neg (by simp), hgs, hfs]
    dsimp only
    rw [hsrev, if_neg (by simp), hsexp, if_neg (by simp), hgu]
  · intro sha b64 now f newId newRaw rt st tr rest sess srest user urest hl
      hfind hu hr hnexp hgs hfs hsrev hsexp hgu hfus hmu
    unfold refresh
    rw [hl, hfind]
    dsimp only
    unfold rotate_afterLookup
    rw [hu, hr, if_neg (by simp), hnexp, if_neg (by simp), hgs, hfs]
    dsimp only
    rw [hsrev, if_neg (by simp), hsexp, if_neg (by simp), hgu, hfus]
    dsimp only
    unfold rotate_commit
    rw [hmu]
  · intro sha b64 now f newId newRaw rt st tr rest sess srest user urest hl
      hfind hu hr hnexp hgs hfs hsrev hsexp hgu hfus hmu hct
    unfold refresh
    rw [hl, hfind]
    dsimp only
    unfold rotate_afterLookup
    rw [hu, hr, if_neg (by simp), hnexp, if_neg (by simp), hgs, hfs]
    dsimp only
    rw [hsrev, if_neg (by simp), hsexp, if_neg (by simp), hgu, hfus]
    dsimp only
    unfold rotate_commit
    rw [hmu, hct]
  · intro sha b64 now f newId newRaw rt st tr rest sess srest user urest hl
      hfind hu hr hnexp hgs hfs hsrev hsexp hgu hfus hmu hct hts
    unfold refresh
    rw [hl, hfind]
    dsimp only
    unfold rotate_afterLookup
    rw [hu, hr, if_neg (by simp), hnexp, if_neg (by simp), hgs, hfs]
    dsimp only
    rw [hsrev, if_neg (by simp), hsexp, if_neg (by simp), hgu, hfus]
    dsimp only
    unfold rotate_commit
    rw [hmu, hct, hts]

/-- Witness for the amended C8: concrete network failures at each wrapped
authenticate call site (returning the three error dicts) and at each of
the seven rotate call sites (each escaping as an exception, with the store
as the preceding writes left it). -/
theorem c8_amended_timeouts_and_fail_closed_witness :
    (authenticate 1000 (some "alice") (some "pw") (fun _ _ => VerifyOutcome.ok)
        { allOkAuth with rpcLookup := CallFate.netRaise } 20 200 dummySha
        dummyB64 [5] "" "" baseStore)
      = ((false, AuthValue.errorDict "Authentication service unavailable"),
         baseStore) ∧
    (authenticate 1000 (some "alice") (some "pw") (fun _ _ => VerifyOutcome.ok)
        { allOkAuth with createSession := CallFate.netRaise } 20 200 dummySha
        dummyB64 [5] "" "" baseStore)
      = ((false, AuthValue.errorDict "Session creation failed"), baseStore) ∧
    (authenticate 1000 (some "alice") (some "pw") (fun _ _ => VerifyOutcome.ok)
        { allOkAuth with createToken := CallFate.netRaise } 20 200 dummySha
        dummyB64 [5] "" "" baseStore)
      = ((false, AuthValue.errorDict "Token creation failed"),
         insertSession baseStore (loginNewSession 1000 20 1 "" "")) ∧
    (refresh dummySha dummyB64 1000
        { allOkRot with lookupToken := CallFate.netRaise } 101 [0] "t" baseStore)
      = (ROutcome.raises PyExc.requestException, baseStore) ∧
    (refresh dummySha dummyB64 1000
        { allOkRot with revokeSession := CallFate.netRaise } 101 [0] "t" spentStore)
      = (ROutcome.raises PyExc.requestException, spentStore) ∧
    (refresh dummySha dummyB64 1000
        { allOkRot with getSession := CallFate.netRaise } 101 [0] "t" baseStore)
      = (ROutcome.raises PyExc.requestException, baseStore) ∧
    (refresh dummySha dummyB64 1000
        { allOkRot with getUser := CallFate.netRaise } 101 [0] "t" baseStore)
      = (ROutcome.raises PyExc.requestException, baseStore) ∧
    (refresh dummySha dummyB64 1000
        { allOkRot with markUsed := CallFate.netRaise } 101 [0] "t" baseStore)
      = (ROutcome.raises PyExc.requestException, baseStore) ∧
    (refresh dummySha dummyB64 1000
        { allOkRot with createToken := CallFate.netRaise } 101 [0] "t" baseStore)
      = (ROutcome.raises PyExc.requestException, markTokenUsed baseStore 100 1000) ∧
    (refresh dummySha dummyB64 1000
        { allOkRot with touchSession := CallFate.netRaise } 101 [0] "t" baseStore)
      = (ROutcome.raises PyExc.requestException,
         insertToken (markTokenUsed baseStore 100 1000)
           (rotNewToken 1000 101 10 "02")) :=
  ⟨c8_amended_timeouts_and_fail_closed.2.1 1000 (some "alice") (some "pw")
      (fun _ _ => VerifyOutcome.ok)
      { allOkAuth with rpcLookup := CallFate.netRaise } 20 200 dummySha dummyB64
      [5] "" "" baseStore (by decide) rfl,
   c8_amended_timeouts_and_fail_closed.2.2.1 1000 (some "alice") (some "pw")
      (fun _ _ => VerifyOutcome.ok)
      { allOkAuth with createSession := CallFate.netRaise } 20 200 dummySha
      dummyB64 [5] "" "" baseStore aliceUser [] (by decide) rfl (by decide) rfl rfl,
   c8_amended_timeouts_and_fail_closed.2.2.2.1 1000 (some "alice") (some "pw")
      (fun _ _ => VerifyOutcome.ok)
      { allOkAuth with createToken := CallFate.netRaise } 20 200 dummySha
      dummyB64 [5] "" "" baseStore aliceUser [] (by decide) rfl (by decide)
      rfl rfl rfl,
   c8_amended_timeouts_and_fail_closed.2.2.2.2.1 dummySha dummyB64 1000
      { allOkRot with lookupToken := CallFate.netRaise } 101 [0] "t" baseStore rfl,
   c8_amended_timeouts_and_fail_closed.2.2.2.2.2.1 dummySha dummyB64 1000
      { allOkRot with revokeSession := CallFate.netRaise } 101 [0] "t" spentStore
      spentTok [] rfl (by decide) (by decide) rfl,
   c8_amended_timeouts_and_fail_closed.2.2.2.2.2.2.1 dummySha dummyB64 1000
      { allOkRot with getSession := CallFate.netRaise } 101 [0] "t" baseStore
      activeTok [] rfl (by decide) rfl rfl (by decide) rfl,
   c8_amended_timeouts_and_fail_closed.2.2.2.2.2.2.2.1 dummySha dummyB64 1000
      { allOkRot with getUser := CallFate.netRaise } 101 [0] "t" baseStore
      activeTok [] liveSession [] rfl (by decide) rfl rfl (by decide) rfl
      (by decide) rfl (by decide) rfl,
   c8_amended_timeouts_and_fail_closed.2.2.2.2.2.2.2.2.1 dummySha dummyB64 1000
      { allOkRot with markUsed := CallFate.netRaise } 101 [0] "t" baseStore
      activeTok [] liveSession [] aliceUser [] rfl (by decide) rfl rfl
      (by decide) rfl (by decide) rfl (by decide) rfl (by decide) rfl,
   c8_amended_timeouts_and_fail_closed.2.2.2.2.2.2.2.2.2.1 dummySha dummyB64 1000
      { allOkRot with createToken := CallFate.netRaise } 101 [0] "t" baseStore
      activeTok [] liveSession [] aliceUser [] rfl (by decide) rfl rfl
      (by decide) rfl (by decide) rfl (by decide) rfl (by decide) rfl rfl,
   c8_amended_timeouts_and_fail_closed.2.2.2.2.2.2.2.2.2.2 dummySha dummyB64 1000
      { allOkRot with touchSession := CallFate.netRaise } 101 [0] "t" baseStore
      activeTok [] liveSession [] aliceUser [] rfl (by decide) rfl rfl
      (by decide) rfl (by decide) rfl (by decide) rfl (by decide) rfl rfl rfl⟩

end Medilink
